import Mathlib

/-!
Verification of the accelerator / training-type-plugin layer of a
deep-learning training framework (`pytorch_lightning` accelerator core).

The embedding below translates, function by function, the relevant parts of
  - `pytorch_lightning/plugins/training_type/training_type_plugin.py`
  - `pytorch_lightning/plugins/training_type/tpu_spawn.py`
  - `pytorch_lightning/accelerators/accelerator.py`
Python exceptions become an explicit error type, mutable attributes become
explicit state records, and the native persistence / collective primitives
become explicit function parameters or executable models.
-/

namespace Spec2Proof

/-- Python exception values that the embedded code distinguishes.
`attributeError` models `AttributeError` (what `torch.save`/pickling raises on
an unpicklable attribute), `runtimeError` models `RuntimeError`,
`misconfigurationException` models Lightning's `MisconfigurationException`;
`otherError` stands for any further exception class. -/
inductive PyExc where
  | attributeError (msg : String)
  | runtimeError (msg : String)
  | misconfigurationException (msg : String)
  | otherError (msg : String)
deriving DecidableEq, Repr

/-- A checkpoint mapping: ordered key/value pairs, as a Python `dict` with
`String` keys (values are opaque, type parameter `V`). -/
abbrev Ckpt (V : Type) := List (String × V)

/-- The constant `LightningModule.CHECKPOINT_HYPER_PARAMS_KEY` — the reserved
hyperparameters key of a checkpoint mapping. -/
def CHECKPOINT_HYPER_PARAMS_KEY : String := "hyper_parameters"

/-- Python's `key in dict` / `dict[key]` lookup on a checkpoint mapping. -/
def lookupKey {V : Type} (c : Ckpt V) (k : String) : Option V :=
  (c.find? (fun kv => kv.1 == k)).map (·.2)

/-- Python's `del dict[key]` on a checkpoint mapping. -/
def delKey {V : Type} (c : Ckpt V) (k : String) : Ckpt V :=
  c.filter (fun kv => kv.1 != k)

/-- Observable outcome of `TrainingTypePlugin.save_checkpoint`:
the checkpoint mappings handed to `atomic_save`, in call order; the number of
`rank_zero_warn` calls; and the final result (`ok` or a propagated
exception). -/
structure SaveTrace (V : Type) where
  attempts : List (Ckpt V)
  warns : Nat
  result : Except PyExc Unit
deriving Repr

/-- Embedding of `TrainingTypePlugin.save_checkpoint(checkpoint, filepath)`
(training_type_plugin.py lines 200-220). The persistence primitive
`atomic_save` is a parameter returning `ok` or the exception it raises.
If the current process is global zero: apply `on_save`, try `atomic_save`;
on `AttributeError` delete the reserved hyperparameters key when present,
warn, and call `atomic_save` once more (whose outcome, error included, is
final); any other exception propagates. Off global zero: do nothing. -/
def TrainingTypePlugin.save_checkpoint {V : Type} (is_global_zero : Bool)
    (on_save : Ckpt V → Ckpt V) (atomic_save : Ckpt V → Except PyExc Unit)
    (checkpoint : Ckpt V) : SaveTrace V :=
  if is_global_zero then
    let ckpt := on_save checkpoint
    match atomic_save ckpt with
    | .ok _ => ⟨[ckpt], 0, .ok ()⟩
    | .error (.attributeError _) =>
        let ckpt2 :=
          if (lookupKey ckpt CHECKPOINT_HYPER_PARAMS_KEY).isSome then
            delKey ckpt CHECKPOINT_HYPER_PARAMS_KEY
          else ckpt
        ⟨[ckpt, ckpt2], 1, atomic_save ckpt2⟩
    | .error e => ⟨[ckpt], 0, .error e⟩
  else ⟨[], 0, .ok ()⟩

/-- A persistence primitive that always raises `AttributeError` (as pickling an
unpicklable local object does), used to probe the retry guard. -/
def alwaysAttrErrSave : Ckpt Nat → Except PyExc Unit :=
  fun _ => .error (.attributeError "Cannot pickle local object")

/-- A checkpoint mapping that does NOT contain the reserved hyperparameters
key. -/
def noHparamsCkpt : Ckpt Nat := [("state_dict", 1), ("epoch", 3)]

/-- C1 counterexample: the claim says the warn-and-retry happens only when the
failure is caused by a non-serializable field under the reserved
hyperparameters key, and that any other persistence failure propagates
without a retry. On a checkpoint that does not contain that key at all, an
`AttributeError` raised by the persistence primitive still triggers the
warn-and-retry: `atomic_save` is called twice and one warning is emitted,
refuting "the retry happens only for that specific failure shape". -/
theorem c1_counterexample :
    lookupKey noHparamsCkpt CHECKPOINT_HYPER_PARAMS_KEY = none ∧
    (TrainingTypePlugin.save_checkpoint true id alwaysAttrErrSave
      noHparamsCkpt).attempts.length = 2 ∧
    (TrainingTypePlugin.save_checkpoint true id alwaysAttrErrSave
      noHparamsCkpt).warns = 1 := by
  refine ⟨rfl, ?_, ?_⟩ <;> rfl

/-- C1 (amended): `TrainingTypePlugin.save_checkpoint` writes only on global
zero; it applies `on_save` first; on ANY `AttributeError` from the
persistence primitive it drops the reserved hyperparameters key when
present, warns exactly once and retries exactly once, the retry's outcome
being final; a failure of any other exception class propagates with no
retry and no warning. -/
theorem c1_save_checkpoint_amended (V : Type) (on_save : Ckpt V → Ckpt V)
    (asave : Ckpt V → Except PyExc Unit) (ckpt : Ckpt V) (m : String)
    (e : PyExc) :
    (TrainingTypePlugin.save_checkpoint false on_save asave ckpt).attempts
      = [] ∧
    (TrainingTypePlugin.save_checkpoint true on_save asave ckpt).attempts.head?
      = some (on_save ckpt) ∧
    (asave (on_save ckpt) = .ok () →
      TrainingTypePlugin.save_checkpoint true on_save asave ckpt
        = ⟨[on_save ckpt], 0, .ok ()⟩) ∧
    (asave (on_save ckpt) = .error (.attributeError m) →
      TrainingTypePlugin.save_checkpoint true on_save asave ckpt
        = ⟨[on_save ckpt,
            if (lookupKey (on_save ckpt) CHECKPOINT_HYPER_PARAMS_KEY).isSome
            then delKey (on_save ckpt) CHECKPOINT_HYPER_PARAMS_KEY
            else on_save ckpt], 1,
           asave (if (lookupKey (on_save ckpt)
                      CHECKPOINT_HYPER_PARAMS_KEY).isSome
                  then delKey (on_save ckpt) CHECKPOINT_HYPER_PARAMS_KEY
                  else on_save ckpt)⟩) ∧
    (asave (on_save ckpt) = .error e → (∀ s, e ≠ .attributeError s) →
      TrainingTypePlugin.save_checkpoint true on_save asave ckpt
        = ⟨[on_save ckpt], 0, .error e⟩) := by
  refine ⟨rfl, ?_, ?_, ?_, ?_⟩
  · unfold TrainingTypePlugin.save_checkpoint
    cases h : asave (on_save ckpt) with
    | ok u => simp [h]
    | error e =>
      cases e <;> simp [h]
  · intro h
    unfold TrainingTypePlugin.save_checkpoint
    simp [h]
  · intro h
    unfold TrainingTypePlugin.save_checkpoint
    simp [h]
  · intro h hne
    unfold TrainingTypePlugin.save_checkpoint
    cases e with
    | attributeError s => exact absurd rfl (hne s)
    | runtimeError s => simp [h]
    | misconfigurationException s => simp [h]
    | otherError s => simp [h]

/-- A persistence primitive that fails with `AttributeError` exactly when the
reserved hyperparameters key is present, and succeeds otherwise. -/
def hparamSensitiveSave : Ckpt Nat → Except PyExc Unit :=
  fun c =>
    if (lookupKey c CHECKPOINT_HYPER_PARAMS_KEY).isSome then
      .error (.attributeError "Cannot pickle local object")
    else .ok ()

/-- A checkpoint mapping that contains the reserved hyperparameters key. -/
def hparamsCkpt : Ckpt Nat := [("state_dict", 1), ("hyper_parameters", 7)]

/-- Witness for the amended C1 theorem at concrete inputs: with a persistence
primitive failing exactly on the hyperparameters key, the save drops the key,
warns once and succeeds on the retry; off global zero nothing is written; a
`RuntimeError` propagates with no retry. -/
theorem c1_save_checkpoint_amended_witness :
    TrainingTypePlugin.save_checkpoint true id hparamSensitiveSave hparamsCkpt
      = ⟨[hparamsCkpt, [("state_dict", 1)]], 1, .ok ()⟩ ∧
    (TrainingTypePlugin.save_checkpoint false id hparamSensitiveSave
      hparamsCkpt).attempts = [] ∧
    TrainingTypePlugin.save_checkpoint true id
      (fun _ => .error (.runtimeError "disk full")) hparamsCkpt
      = ⟨[hparamsCkpt], 0, .error (.runtimeError "disk full")⟩ := by
  have h := c1_save_checkpoint_amended Nat id hparamSensitiveSave hparamsCkpt
    "Cannot pickle local object" (.runtimeError "disk full")
  have h2 := c1_save_checkpoint_amended Nat id
    (fun _ => .error (.runtimeError "disk full")) hparamsCkpt
    "m" (.runtimeError "disk full")
  refine ⟨?_, h.1, ?_⟩
  · have h4 := h.2.2.2.1 (by rfl)
    rw [h4]; rfl
  · exact h2.2.2.2.2 rfl (fun s => by simp)

/-- Modelled from the spec: the run-state enumeration
(`pytorch_lightning.trainer.states.TrainerState`, not among the given source
files). The spec names FITTING and TUNING as the values gating optimizer
construction and weight reload, "and others treated as not fitting". -/
inductive TrainerState where
  | FITTING
  | VALIDATING
  | TESTING
  | PREDICTING
  | TUNING
  | FINISHED
deriving DecidableEq, Repr

/-- A value travelling on the spawn variant's cross-process channel
(`mp_queue`): either an optional checkpoint path or the run's return value
(of opaque type `R`). -/
inductive QItem (R : Type) where
  | pathItem (p : Option String)
  | resultItem (r : R)
deriving Repr

/-- The `re.sub(".ckpt", ".tmp_end.ckpt", best_model_path)` transform that
derives the "last" checkpoint path from the best one (tpu_spawn.py line
143), modelled as literal substring replacement. -/
def last_path_sub (best : String) : String :=
  best.replace ".ckpt" ".tmp_end.ckpt"

/-- Observable outcome of
`TPUSpawnPlugin.transfer_distrib_spawn_state_on_fit_end`: the values this
worker put on `mp_queue`, in order, and the "last" checkpoint path it wrote
via `self.save` (if any). -/
structure SpawnTransferOut (R : Type) where
  pushed : List (QItem R)
  saved_last : Option String
deriving Repr

/-- Embedding of `TPUSpawnPlugin.transfer_distrib_spawn_state_on_fit_end`
(tpu_spawn.py lines 130-150). `best_model_path` is the checkpoint
collaborator's best path (`none` when there is no collaborator),
`has_mp_queue` reflects `self.mp_queue is not None`, `global_rank` and
`state` the worker's rank and the trainer's run state. A "last" path is
written when the state is FITTING and a non-empty best path exists; only
global rank 0 pushes, and it pushes best path, last path, results in that
order. -/
def transfer_distrib_spawn_state_on_fit_end {R : Type} (state : TrainerState)
    (best_model_path : Option String) (global_rank : Nat)
    (has_mp_queue : Bool) (results : R) : SpawnTransferOut R :=
  if has_mp_queue then
    let last_path : Option String :=
      match best_model_path with
      | some p =>
          if state = TrainerState.FITTING ∧ 0 < p.length then
            some (last_path_sub p)
          else none
      | none => none
    let pushed : List (QItem R) :=
      if global_rank = 0 then
        [QItem.pathItem best_model_path, QItem.pathItem last_path,
         QItem.resultItem results]
      else []
    ⟨pushed, last_path⟩
  else ⟨[], none⟩

/-- Embedding of the `TPUSpawnPlugin.post_dispatch` reads from the channel (tpu_spawn.py lines
228-235): three successive `mp_queue.get()` calls yielding best path, last
path and results, in that order; returns those three values and the channel's
remaining contents, or `none` if fewer than three values are available (the
real call would block forever). -/
def post_dispatch_reads {R : Type} (queue : List (QItem R)) :
    Option (QItem R × QItem R × QItem R × List (QItem R)) :=
  match queue with
  | a :: b :: c :: rest => some (a, b, c, rest)
  | _ => none

/-- C2: with the channel present, a worker of any non-zero global rank pushes
nothing; the rank-0 worker pushes exactly three values in the fixed order
{best path, last path, results}, where the last path is `none` unless the run
state was FITTING and a non-empty best path existed (in which case it is the
derived `.tmp_end.ckpt` path); `post_dispatch` then reads exactly those three
values in that same order, leaving the channel empty. -/
theorem c2_spawn_queue_protocol {R : Type} (state : TrainerState)
    (best_model_path : Option String) (k : Nat) (results : R) :
    (transfer_distrib_spawn_state_on_fit_end state best_model_path
      (k + 1) true results).pushed = [] ∧
    (transfer_distrib_spawn_state_on_fit_end state best_model_path 0 true
        results).pushed
      = [QItem.pathItem best_model_path,
         QItem.pathItem (transfer_distrib_spawn_state_on_fit_end state
            best_model_path 0 true results).saved_last,
         QItem.resultItem results] ∧
    ((transfer_distrib_spawn_state_on_fit_end state best_model_path 0 true
        results).saved_last = none ∨
      (state = TrainerState.FITTING ∧ ∃ p, best_model_path = some p ∧
        0 < p.length ∧
        (transfer_distrib_spawn_state_on_fit_end state best_model_path 0 true
          results).saved_last = some (last_path_sub p))) ∧
    post_dispatch_reads (transfer_distrib_spawn_state_on_fit_end state
        best_model_path 0 true results).pushed
      = some (QItem.pathItem best_model_path,
          QItem.pathItem (transfer_distrib_spawn_state_on_fit_end state
            best_model_path 0 true results).saved_last,
          QItem.resultItem results, []) := by
  refine ⟨by simp [transfer_distrib_spawn_state_on_fit_end], ?_, ?_, ?_⟩
  · simp [transfer_distrib_spawn_state_on_fit_end]
  · cases best_model_path with
    | none => left; simp [transfer_distrib_spawn_state_on_fit_end]
    | some p =>
      by_cases h : state = TrainerState.FITTING ∧ 0 < p.length
      · right
        exact ⟨h.1, p, rfl, h.2,
          by simp [transfer_distrib_spawn_state_on_fit_end, h]⟩
      · left; simp [transfer_distrib_spawn_state_on_fit_end, h]
  · simp [transfer_distrib_spawn_state_on_fit_end, post_dispatch_reads]

/-- The `ReduceOp` enumeration
(`pytorch_lightning.utilities.distributed.ReduceOp`, mirroring
`torch.distributed.ReduceOp`): the embedded code only tests membership and
equality with `SUM`. -/
inductive ReduceOp where
  | SUM
  | PRODUCT
  | MIN
  | MAX
deriving DecidableEq, Repr

/-- The `reduce_op` argument of `TPUSpawnPlugin.reduce`:
`Union[ReduceOp, str]` (the surrounding `Option` models `None`). -/
inductive ReduceOpArg where
  | op (r : ReduceOp)
  | strOp (s : String)
deriving DecidableEq, Repr

/-- Python's `str.lower()` on the embedded op names, executable over the
string's character list (the op names involved are ASCII). -/
def pyLower (s : String) : String := String.mk (s.data.map Char.toLower)

/-- Embedding of `TPUSpawnPlugin.reduce(output, group, reduce_op)` (tpu_spawn.py lines
210-226), with the per-process scalar inputs made explicit: `outputs` holds
the value each of the cooperating processes passes in, and the collective
`xm.mesh_reduce('reduce', output, sum)` is their sum. Scalars are embedded as
rationals. A `ReduceOp` other than `SUM`, or an op name whose lower-casing is
not `sum`/`mean`/`avg`, raises `MisconfigurationException`; otherwise the sum
is computed, divided by `world_size` when the op name lower-cases to
`mean`/`avg`. -/
def TPUSpawn_reduce (outputs : List ℚ) (world_size : Nat)
    (reduce_op : Option ReduceOpArg) : Except PyExc ℚ :=
  let invalid_reduce_op : Bool :=
    match reduce_op with
    | some (.op r) => r != ReduceOp.SUM
    | _ => false
  let invalid_reduce_op_str : Bool :=
    match reduce_op with
    | some (.strOp s) =>
        !(pyLower s == "sum" || pyLower s == "mean" || pyLower s == "avg")
    | _ => false
  if invalid_reduce_op || invalid_reduce_op_str then
    .error (.misconfigurationException
      "Currently, TPUSpawn TrainingTypePlugin only support `sum`, `mean`, `avg` reduce operation.")
  else
    let out := outputs.sum
    let out :=
      match reduce_op with
      | some (.strOp s) =>
          if pyLower s == "avg" || pyLower s == "mean" then
            out / (world_size : ℚ)
          else out
      | _ => out
    .ok out

/-- Embedding of `TPUSpawnPlugin.reduce_decision(decision)` (tpu_spawn.py lines 204-208),
with each process's boolean made explicit in `decisions`. Each boolean is
converted to 0/1; `self.reduce(decision, "sum")` passes `"sum"`
positionally into the `group` parameter, so `reduce` runs with
`reduce_op = None` (its collective is a sum either way); the result is
compared against `world_size`. `reduce` with `reduce_op = None` never
raises, so the error branch below is unreachable. -/
def TPUSpawn_reduce_decision (decisions : List Bool) (world_size : Nat) :
    Bool :=
  match TPUSpawn_reduce
      (decisions.map (fun d => if d then (1 : ℚ) else 0)) world_size none with
  | .ok s => s == (world_size : ℚ)
  | .error _ => false

/-- With `reduce_op = None`, `reduce` performs the plain sum-reduction and
never raises. -/
theorem reduce_none_eq_sum (outputs : List ℚ) (world_size : Nat) :
    TPUSpawn_reduce outputs world_size none = .ok outputs.sum := rfl

/-- The 0/1 indicator sum of a list of booleans counts its `true` entries. -/
theorem indicator_sum_eq_count (ds : List Bool) :
    (ds.map (fun d => if d then (1 : ℚ) else 0)).sum
      = (ds.count true : ℚ) := by
  induction ds with
  | nil => simp
  | cons d ds ih =>
    rcases d with _ | _ <;> simp [List.count_cons, ih] <;> push_cast <;> ring

/-- C3: over `N` processes (world size `N`), `reduce_decision` converts each
boolean to 0/1, sum-reduces and compares against the world size, returning
`true` iff every one of the `N` processes supplied `true` — unanimous AND
semantics; any single `false` yields `false`. -/
theorem c3_reduce_decision_unanimous (decisions : List Bool) :
    TPUSpawn_reduce_decision decisions decisions.length
      = decisions.all (fun b => b) := by
  have h1 : TPUSpawn_reduce_decision decisions decisions.length
      = ((decisions.map (fun d => if d then (1 : ℚ) else 0)).sum
          == (decisions.length : ℚ)) := rfl
  rw [h1, indicator_sum_eq_count]
  rcases hall : decisions.all (fun b => b) with _ | _
  · rw [beq_eq_false_iff_ne]
    intro hc
    have hcnt : decisions.count true = decisions.length := Nat.cast_inj.mp hc
    have hall2 := List.count_eq_length.mp hcnt
    rw [List.all_eq_false] at hall
    rcases hall with ⟨b, hb, hnb⟩
    exact hnb ((hall2 b hb).symm)
  · rw [List.all_eq_true] at hall
    exact beq_iff_eq.mpr
      (congrArg _ (List.count_eq_length.mpr (fun b hb => (hall b hb).symm)))

/-- C4: `reduce` accepts a named op only from {sum, mean, avg}, matched
case-insensitively: any other name raises `MisconfigurationException`
immediately (no retry — `reduce` evaluates the primitive at most once by
construction); for a uniform per-process value `v` over `N` processes
(world size `N`, `N > 0`), the op named `sum` yields `N·v` and an op named
`mean`/`avg` yields `v`. -/
theorem c4_reduce_named_ops (s : String) (N : Nat) (v : ℚ) (hN : 0 < N) :
    (pyLower s ≠ "sum" → pyLower s ≠ "mean" → pyLower s ≠ "avg" →
      TPUSpawn_reduce (List.replicate N v) N (some (.strOp s))
        = .error (.misconfigurationException
            "Currently, TPUSpawn TrainingTypePlugin only support `sum`, `mean`, `avg` reduce operation.")) ∧
    (pyLower s = "sum" →
      TPUSpawn_reduce (List.replicate N v) N (some (.strOp s))
        = .ok ((N : ℚ) * v)) ∧
    (pyLower s = "mean" ∨ pyLower s = "avg" →
      TPUSpawn_reduce (List.replicate N v) N (some (.strOp s)) = .ok v) := by
  have hsum : (List.replicate N v).sum = (N : ℚ) * v := by
    rw [List.sum_replicate, nsmul_eq_mul]
  have hNQ : (N : ℚ) ≠ 0 := Nat.cast_ne_zero.mpr hN.ne'
  refine ⟨?_, ?_, ?_⟩
  · intro h1 h2 h3
    simp only [TPUSpawn_reduce, beq_eq_false_iff_ne, ne_eq]
    rw [if_pos]
    simp [h1, h2, h3]
  · intro h
    simp only [TPUSpawn_reduce]
    rw [if_neg (by simp [h]), hsum]
    simp [h]
  · intro h
    simp only [TPUSpawn_reduce]
    rcases h with h | h
    · rw [if_neg (by simp [h]), hsum]
      simp only [h]
      rw [if_pos (by simp)]
      congr 1
      exact mul_div_cancel_left₀ v hNQ
    · rw [if_neg (by simp [h]), hsum]
      simp only [h]
      rw [if_pos (by simp)]
      congr 1
      exact mul_div_cancel_left₀ v hNQ

/-- Witness for C4 at concrete inputs: world size 3, uniform value 5.
`"MEAN"` (upper case) is accepted and yields 5; `"sum"` yields 15;
`"max"` raises the configuration error. -/
theorem c4_reduce_named_ops_witness :
    TPUSpawn_reduce (List.replicate 3 (5 : ℚ)) 3
        (some (.strOp "MEAN")) = .ok 5 ∧
    TPUSpawn_reduce (List.replicate 3 (5 : ℚ)) 3
        (some (.strOp "sum")) = .ok 15 ∧
    TPUSpawn_reduce (List.replicate 3 (5 : ℚ)) 3
        (some (.strOp "max"))
      = .error (.misconfigurationException
          "Currently, TPUSpawn TrainingTypePlugin only support `sum`, `mean`, `avg` reduce operation.") := by
  refine ⟨?_, ?_, ?_⟩
  · exact (c4_reduce_named_ops "MEAN" 3 5 (by decide)).2.2 (Or.inl (by decide))
  · have h := (c4_reduce_named_ops "sum" 3 5 (by decide)).2.1 (by decide)
    rw [h]
    norm_num
  · exact (c4_reduce_named_ops "max" 3 5 (by decide)).1
      (by decide) (by decide) (by decide)

/-- The `Accelerator`'s mutable attributes relevant to optimizer and
precision setup (accelerator.py lines 52-68 and 335-360): the three parallel
lists set by `setup_optimizers`, the model reference held through the
training-type plugin, and the `schedulers` attribute that
`setup_precision_plugin` creates (absent — `none` — until then; `__init__`
only creates `optimizers`, `lr_schedulers`, `optimizer_frequencies`).
`O` are optimizer values, `S` scheduler values, `M` the model. -/
structure AcceleratorState (O S M : Type) where
  optimizers : List O
  lr_schedulers : List S
  optimizer_frequencies : List Nat
  schedulers : Option (List S)
  model : M
deriving Repr

/-- Embedding of `Accelerator.__init__`: the three lists start empty and no `schedulers`
attribute exists yet. -/
def Accelerator.init {O S M : Type} (model : M) : AcceleratorState O S M :=
  ⟨[], [], [], none, model⟩

/-- Embedding of `Accelerator.setup_optimizers(trainer)` (accelerator.py lines 335-349):
a no-op unless the trainer state is FITTING or TUNING; otherwise the plugin's
`init_optimizers` result — three parallel lists — is stored by plain
attribute assignment (replacing, not appending). `init_optimizers` is a
parameter standing for `trainer.init_optimizers(model)`. -/
def Accelerator.setup_optimizers {O S M : Type} (state : TrainerState)
    (init_optimizers : Unit → List O × List S × List Nat)
    (acc : AcceleratorState O S M) : AcceleratorState O S M :=
  if state ≠ TrainerState.FITTING ∧ state ≠ TrainerState.TUNING then acc
  else
    let r := init_optimizers ()
    { acc with
        optimizers := r.1
        lr_schedulers := r.2.1
        optimizer_frequencies := r.2.2 }

/-- C5: `setup_optimizers` leaves every field unchanged when the trainer
state is neither FITTING nor TUNING (so the lists stay empty if never
populated); in FITTING or TUNING it stores exactly the three parallel lists
returned by the plugin's optimizer initialization; and a second call in the
same run replaces the stored lists — composing two calls equals the second
call alone, so entries are never duplicated. -/
theorem c5_setup_optimizers (O S M : Type) (state : TrainerState)
    (init1 init2 : Unit → List O × List S × List Nat)
    (acc : AcceleratorState O S M) :
    (state ≠ TrainerState.FITTING → state ≠ TrainerState.TUNING →
      Accelerator.setup_optimizers state init1 acc = acc) ∧
    (state = TrainerState.FITTING ∨ state = TrainerState.TUNING →
      Accelerator.setup_optimizers state init1 acc
        = { acc with
              optimizers := (init1 ()).1
              lr_schedulers := (init1 ()).2.1
              optimizer_frequencies := (init1 ()).2.2 }) ∧
    Accelerator.setup_optimizers state init2
        (Accelerator.setup_optimizers state init1 acc)
      = Accelerator.setup_optimizers state init2 acc := by
  refine ⟨?_, ?_, ?_⟩
  · intro h1 h2
    simp [Accelerator.setup_optimizers, h1, h2]
  · intro h
    rcases h with h | h <;> subst h <;>
      simp [Accelerator.setup_optimizers]
  · by_cases h : state ≠ TrainerState.FITTING ∧ state ≠ TrainerState.TUNING
    · simp [Accelerator.setup_optimizers, h]
    · simp only [Accelerator.setup_optimizers, if_neg h]

/-- Witness for C5 at concrete inputs: in TESTING state nothing changes from
the empty initial state; in FITTING state two successive calls leave exactly
the second call's lists. -/
theorem c5_setup_optimizers_witness :
    Accelerator.setup_optimizers TrainerState.TESTING
        (fun _ => ([1], [10], [5]))
        (Accelerator.init 0 : AcceleratorState Nat Nat Nat)
      = Accelerator.init 0 ∧
    Accelerator.setup_optimizers TrainerState.FITTING
        (fun _ => ([2, 3], [20], [6]))
        (Accelerator.setup_optimizers TrainerState.FITTING
          (fun _ => ([1], [10], [5]))
          (Accelerator.init 0 : AcceleratorState Nat Nat Nat))
      = ⟨[2, 3], [20], [6], none, 0⟩ := by
  constructor
  · exact (c5_setup_optimizers Nat Nat Nat TrainerState.TESTING
      (fun _ => ([1], [10], [5])) (fun _ => ([1], [10], [5]))
      (Accelerator.init 0)).1 (by decide) (by decide)
  · have h := c5_setup_optimizers Nat Nat Nat TrainerState.FITTING
      (fun _ => ([1], [10], [5])) (fun _ => ([2, 3], [20], [6]))
      (Accelerator.init 0)
    rw [h.2.2]
    exact (c5_setup_optimizers Nat Nat Nat TrainerState.FITTING
      (fun _ => ([2, 3], [20], [6])) (fun _ => ([2, 3], [20], [6]))
      (Accelerator.init 0)).2.1 (Or.inl rfl)

/-- Embedding of `Accelerator.setup_precision_plugin(plugin)` (accelerator.py lines
355-360): `plugin.connect(self.model, self.optimizers, self.lr_schedulers)`
returns a 3-tuple; the model and optimizers references are overwritten with
its first two components, and the third is stored in a NEW `schedulers`
attribute — `lr_schedulers` is not assigned. `connect` is a parameter
standing for the precision plugin's `connect` method. -/
def Accelerator.setup_precision_plugin {O S M : Type}
    (connect : M → List O → List S → M × List O × List S)
    (acc : AcceleratorState O S M) : AcceleratorState O S M :=
  let r := connect acc.model acc.optimizers acc.lr_schedulers
  { acc with
      model := r.1
      optimizers := r.2.1
      schedulers := some r.2.2 }

/-- C10: after `setup_precision_plugin`, the model and optimizers equal the
first two components of the 3-tuple `connect` returned, while
`lr_schedulers` keeps its pre-call value (and `optimizer_frequencies` is
also untouched): the returned schedulers land in the separate `schedulers`
attribute, so scheduler wrapping by the precision plugin is never reflected
in `lr_schedulers`. -/
theorem c10_setup_precision_plugin (O S M : Type)
    (connect : M → List O → List S → M × List O × List S)
    (acc : AcceleratorState O S M) :
    (Accelerator.setup_precision_plugin connect acc).model
        = (connect acc.model acc.optimizers acc.lr_schedulers).1 ∧
    (Accelerator.setup_precision_plugin connect acc).optimizers
        = (connect acc.model acc.optimizers acc.lr_schedulers).2.1 ∧
    (Accelerator.setup_precision_plugin connect acc).lr_schedulers
        = acc.lr_schedulers ∧
    (Accelerator.setup_precision_plugin connect acc).schedulers
        = some (connect acc.model acc.optimizers acc.lr_schedulers).2.2 ∧
    (Accelerator.setup_precision_plugin connect acc).optimizer_frequencies
        = acc.optimizer_frequencies :=
  ⟨rfl, rfl, rfl, rfl, rfl⟩

/-- The opaque native object serialization (`torch.save` into a byte
buffer). The spec treats the format as an opaque blob that round-trips; it
is modelled as a self-delimiting two-byte encoding of a natural number below
65536. -/
def torch_save_bytes (o : Nat) : List Nat := [o % 256, o / 256 % 256]

/-- The opaque native deserialization (`torch.load` from a byte buffer): it
reads a SINGLE object from the front of the buffer and ignores any trailing
bytes. -/
def torch_load_bytes (bs : List Nat) : Option Nat :=
  match bs with
  | b0 :: b1 :: _ => some (b0 + 256 * b1)
  | _ => none

/-- The serialization is self-delimiting: reading from a buffer that starts
with an encoded object yields that object, whatever follows. -/
theorem torch_load_save_round_trip (o : Nat) (ho : o < 65536)
    (rest : List Nat) :
    torch_load_bytes (torch_save_bytes o ++ rest) = some o := by
  simp only [torch_save_bytes, torch_load_bytes, List.cons_append,
    List.nil_append]
  congr 1
  omega

/-- Embedding of `TPUSpawnPlugin.broadcast(obj, src)` (tpu_spawn.py lines 164-172), with
every participating process's object made explicit in `objs` (index =
global rank; the collective is called by all ranks). Each process serializes
ITS OWN object to a byte buffer; the bytes survive the byte → float → byte
tensor conversion unchanged (0-255 are exactly representable in the float
dtype); `xm.all_gather` concatenates the per-rank byte tensors in rank
order; `torch.load` then reads a single object from the front of the
concatenated buffer. The `src` argument is never consulted in the body. -/
def TPUSpawn_broadcast (objs : List Nat) (src : Nat) : Option Nat :=
  torch_load_bytes (List.flatten (objs.map torch_save_bytes))

/-- C6: `broadcast` does not return the source rank's object. With two
participants holding 5 (rank 0) and 7 (rank 1) and source rank `src = 1`,
every participant obtains rank 0's object 5, not the requested source's 7:
the body all-gathers every rank's serialized object and deserializes the
head of the concatenation, ignoring `src` — against the `broadcast(obj,
src)` interface contract documented in accelerator.py. With `src = 0` the
round-trip does hold. -/
theorem c6_broadcast_ignores_src :
    TPUSpawn_broadcast [5, 7] 1 = some 5 ∧
    [5, 7][1]? = some 7 ∧
    TPUSpawn_broadcast [5, 7] 1 ≠ [5, 7][1]? ∧
    TPUSpawn_broadcast [5, 7] 0 = some 5 := by
  refine ⟨rfl, rfl, ?_, rfl⟩
  intro h
  simp [TPUSpawn_broadcast, torch_save_bytes, torch_load_bytes,
    List.flatten] at h

/-- The message fragment whose presence in a `RuntimeError` makes
`TPUSpawnPlugin.save` treat the failure as benign. -/
def RENDEZVOUS_FRAGMENT : String := "Failed to meet rendezvous"

/-- Whether `pattern` starts `text` (over character lists). -/
def startsWithChars : List Char → List Char → Bool
  | [], _ => true
  | _ :: _, [] => false
  | p :: ps, c :: cs => p == c && startsWithChars ps cs

/-- Whether `pattern` occurs contiguously somewhere in `text` (over character
lists). -/
def containsChars (pat : List Char) : List Char → Bool
  | [] => startsWithChars pat []
  | c :: cs => startsWithChars pat (c :: cs) || containsChars pat cs

/-- Python's `pat in s` substring test. -/
def strContains (s pat : String) : Bool := containsChars pat.data s.data

/-- Embedding of `TPUSpawnPlugin.save(state_dict, path)` (tpu_spawn.py lines 152-162):
invokes the native `xm.save` exactly once — `outcome` is that single call's
result — swallowing a `RuntimeError` whose message contains
"Failed to meet rendezvous" (the data is already written by then) and
re-raising any other `RuntimeError`; exceptions of any other class propagate
uncaught. The second component counts native-save invocations, always 1: the
benign failure is swallowed, not retried. -/
def TPUSpawn_save (outcome : Except PyExc Unit) : Except PyExc Unit × Nat :=
  match outcome with
  | .ok _ => (.ok (), 1)
  | .error (.runtimeError m) =>
      if strContains m RENDEZVOUS_FRAGMENT then (.ok (), 1)
      else (.error (.runtimeError m), 1)
  | .error e => (.error e, 1)

/-- C7: `save` calls the native save primitive exactly once in every case; a
successful native save succeeds; a `RuntimeError` whose message contains the
rendezvous fragment is swallowed (the call returns normally, no retry); a
`RuntimeError` without the fragment is re-raised; and a failure of any other
exception class propagates to the caller. -/
theorem c7_save_swallows_rendezvous (m : String) (e : PyExc) :
    (∀ outcome : Except PyExc Unit, (TPUSpawn_save outcome).2 = 1) ∧
    TPUSpawn_save (.ok ()) = (.ok (), 1) ∧
    (strContains m RENDEZVOUS_FRAGMENT = true →
      TPUSpawn_save (.error (.runtimeError m)) = (.ok (), 1)) ∧
    (strContains m RENDEZVOUS_FRAGMENT = false →
      TPUSpawn_save (.error (.runtimeError m))
        = (.error (.runtimeError m), 1)) ∧
    ((∀ s, e ≠ .runtimeError s) →
      TPUSpawn_save (.error e) = (.error e, 1)) := by
  refine ⟨?_, rfl, ?_, ?_, ?_⟩
  · intro outcome
    cases outcome with
    | ok a => rfl
    | error e' =>
      rcases e' with m' | m' | m' | m' <;> simp [TPUSpawn_save] <;>
        by_cases h : strContains m' RENDEZVOUS_FRAGMENT <;> simp [h]
  · intro h
    simp [TPUSpawn_save, h]
  · intro h
    simp [TPUSpawn_save, h]
  · intro h
    rcases e with s | s | s | s
    · rfl
    · exact absurd rfl (h s)
    · rfl
    · rfl

/-- Witness for C7 at concrete inputs: a rendezvous-timing `RuntimeError` is
swallowed; a different `RuntimeError` and an `OSError`-like failure both
propagate; the native primitive is invoked exactly once on the swallowed
failure. -/
theorem c7_save_swallows_rendezvous_witness :
    TPUSpawn_save (.error (.runtimeError
        "tensorflow/compiler/xla: Failed to meet rendezvous 'save': ABORTED"))
      = (.ok (), 1) ∧
    TPUSpawn_save (.error (.runtimeError "XLA device busy"))
      = (.error (.runtimeError "XLA device busy"), 1) ∧
    TPUSpawn_save (.error (.otherError "No space left on device"))
      = (.error (.otherError "No space left on device"), 1) := by
  refine ⟨?_, ?_, ?_⟩
  · exact (c7_save_swallows_rendezvous
      "tensorflow/compiler/xla: Failed to meet rendezvous 'save': ABORTED"
      (.otherError "No space left on device")).2.2.1 (by decide)
  · exact (c7_save_swallows_rendezvous "XLA device busy"
      (.otherError "No space left on device")).2.2.2.1 (by decide)
  · exact (c7_save_swallows_rendezvous "XLA device busy"
      (.otherError "No space left on device")).2.2.2.2
      (fun s => by simp)

/-- A tensor inside a batch: an opaque payload and the device it lives on
(devices as indices). -/
structure Tensor where
  payload : Nat
  device : Nat
deriving DecidableEq, Repr

/-- The shape of a batch handed to `Accelerator.to_device`: a single tensor,
a sequence (Python list/tuple) of sub-batches, or a mapping with string
keys — nesting is arbitrary. -/
inductive Batch where
  | tensor (t : Tensor)
  | seq (items : List Batch)
  | dict (entries : List (String × Batch))

mutual

/-- Modelled from the spec: the generic transfer routine
(`move_data_to_device` of `pytorch_lightning.utilities.apply_func`, reached
through `batch_to_device` / `_apply_batch_transfer_handler`; that module is
not among the given source files). Per the spec, "transfer is recursive and
type-preserving": every tensor in the collection is relocated to the target
device and the collection structure is kept. -/
def move_data_to_device : Batch → Nat → Batch
  | .tensor t, dev => .tensor ⟨t.payload, dev⟩
  | .seq items, dev => .seq (moveItems items dev)
  | .dict entries, dev => .dict (moveEntries entries dev)

/-- Recursive transfer over a sequence of sub-batches. -/
def moveItems : List Batch → Nat → List Batch
  | [], _ => []
  | b :: bs, dev => move_data_to_device b dev :: moveItems bs dev

/-- Recursive transfer over the entries of a mapping, keys untouched. -/
def moveEntries : List (String × Batch) → Nat → List (String × Batch)
  | [], _ => []
  | (k, b) :: bs, dev => (k, move_data_to_device b dev) :: moveEntries bs dev

end

mutual

/-- Every tensor in the batch lives on device `dev`. -/
def allOnDevice : Batch → Nat → Bool
  | .tensor t, dev => t.device == dev
  | .seq items, dev => allItemsOnDevice items dev
  | .dict entries, dev => allEntriesOnDevice entries dev

/-- Every tensor in a sequence of sub-batches lives on device `dev`. -/
def allItemsOnDevice : List Batch → Nat → Bool
  | [], _ => true
  | b :: bs, dev => allOnDevice b dev && allItemsOnDevice bs dev

/-- Every tensor in a mapping's entries lives on device `dev`. -/
def allEntriesOnDevice : List (String × Batch) → Nat → Bool
  | [], _ => true
  | (_, b) :: bs, dev => allOnDevice b dev && allEntriesOnDevice bs dev

end

/-- Embedding of `Accelerator.to_device(batch)` (accelerator.py lines 362-369): a
mapping-typed batch is wrapped into a 1-element list before the generic
transfer routine runs (`batch = [batch]`), and unwrapped afterwards
(`batch[0]`); any other batch shape is passed through directly.
`root_device` stands for `self.root_device`. -/
def Accelerator.to_device (batch : Batch) (root_device : Nat) : Batch :=
  let is_dict : Bool := match batch with | .dict _ => true | _ => false
  let wrapped := if is_dict then Batch.seq [batch] else batch
  let moved := move_data_to_device wrapped root_device
  if is_dict then
    match moved with
    | .seq (b :: _) => b
    | _ => moved
  else moved

mutual

/-- The transfer routine puts every tensor of a batch on the target
device. -/
theorem move_allOnDevice (b : Batch) (dev : Nat) :
    allOnDevice (move_data_to_device b dev) dev = true :=
  match b with
  | .tensor t => by simp [move_data_to_device, allOnDevice]
  | .seq items => by
      simp only [move_data_to_device, allOnDevice]
      exact moveItems_allOnDevice items dev
  | .dict entries => by
      simp only [move_data_to_device, allOnDevice]
      exact moveEntries_allOnDevice entries dev

/-- Sequence case of `move_allOnDevice`. -/
theorem moveItems_allOnDevice (bs : List Batch) (dev : Nat) :
    allItemsOnDevice (moveItems bs dev) dev = true :=
  match bs with
  | [] => rfl
  | b :: bs => by
      simp only [moveItems, allItemsOnDevice, Bool.and_eq_true]
      exact ⟨move_allOnDevice b dev, moveItems_allOnDevice bs dev⟩

/-- Mapping case of `move_allOnDevice`. -/
theorem moveEntries_allOnDevice (bs : List (String × Batch)) (dev : Nat) :
    allEntriesOnDevice (moveEntries bs dev) dev = true :=
  match bs with
  | [] => rfl
  | (k, b) :: bs => by
      simp only [moveEntries, allEntriesOnDevice, Bool.and_eq_true]
      exact ⟨move_allOnDevice b dev, moveEntries_allOnDevice bs dev⟩

end

/-- C8: `to_device` is type-preserving. On every batch it coincides with the
direct recursive relocation (the wrap-into-1-element-sequence and unwrap
cancel); a mapping batch yields a mapping whose keys are identical and whose
values are the relocated sub-batches; a single tensor stays a tensor and a
sequence stays a sequence with its nesting intact; and every tensor of the
result lives on the root device. -/
theorem c8_to_device_type_preserving (b : Batch) (t : Tensor)
    (bs : List Batch) (es : List (String × Batch)) (dev : Nat) :
    Accelerator.to_device b dev = move_data_to_device b dev ∧
    Accelerator.to_device (.dict es) dev = .dict (moveEntries es dev) ∧
    (moveEntries es dev).map Prod.fst = es.map Prod.fst ∧
    Accelerator.to_device (.tensor t) dev = .tensor ⟨t.payload, dev⟩ ∧
    Accelerator.to_device (.seq bs) dev = .seq (moveItems bs dev) ∧
    allOnDevice (Accelerator.to_device b dev) dev = true := by
  have hmove : ∀ b' : Batch,
      Accelerator.to_device b' dev = move_data_to_device b' dev := by
    intro b'
    cases b' with
    | tensor t' => rfl
    | seq items => rfl
    | dict entries => rfl
  have hkeys : ∀ es' : List (String × Batch),
      (moveEntries es' dev).map Prod.fst = es'.map Prod.fst := by
    intro es'
    induction es' with
    | nil => rfl
    | cons kb bs' ih =>
      cases kb with
      | mk k b' => simp [moveEntries, ih]
  refine ⟨hmove b, hmove (.dict es), hkeys es, rfl, hmove (.seq bs), ?_⟩
  rw [hmove b]
  exact move_allOnDevice b dev

/-- Embedding of `TPUSpawnPlugin.save_checkpoint(checkpoint, filepath)` (tpu_spawn.py
lines 299-307): it calls `self.save` exactly once, with the checkpoint
mapping comprehension-filtered to drop the `"callbacks"` key — on every
rank (`is_global_zero` mirrors the calling process's identity but is never
consulted), with no `on_save` transform and no drop-and-retry recovery.
Returns the mappings handed to `self.save`, in call order. -/
def TPUSpawn_save_checkpoint {V : Type} (is_global_zero : Bool)
    (checkpoint : Ckpt V) : List (Ckpt V) :=
  [checkpoint.filter (fun kv => kv.1 != "callbacks")]

/-- Dropping the `"callbacks"` key leaves the lookup of every other key
unchanged. -/
theorem lookup_filter_callbacks {V : Type} (c : Ckpt V) (k : String)
    (hk : k ≠ "callbacks") :
    lookupKey (c.filter (fun kv => kv.1 != "callbacks")) k = lookupKey c k := by
  induction c with
  | nil => rfl
  | cons kv c ih =>
    rcases kv with ⟨k1, v1⟩
    rw [List.filter_cons]
    by_cases h : k1 = "callbacks"
    · simp only [h, bne_self_eq_false]
      rw [if_neg (by simp)]
      have hne2 : ("callbacks" == k) = false := by
        rw [beq_eq_false_iff_ne]
        exact fun hc => hk hc.symm
      simp only [lookupKey, List.find?, hne2]
      exact ih
    · have hb : (k1 != "callbacks") = true := by
        simpa [bne] using h
      rw [if_pos (by simp [hb])]
      by_cases h2 : k1 = k
      · simp only [lookupKey, List.find?, h2, beq_self_eq_true]
      · have hne : (k1 == k) = false := beq_eq_false_iff_ne.mpr h2
        simp only [lookupKey, List.find?, hne]
        exact ih

/-- C9: on every rank — global zero or not — the spawn variant's
`save_checkpoint` performs exactly one write, of the checkpoint with the
`"callbacks"` key removed and every other key intact: the write list is
independent of the rank identity (no global-zero guard like the base
`TrainingTypePlugin.save_checkpoint`, which writes nothing off global zero),
the written mapping has no `"callbacks"` key, and every other key maps to
its original value. -/
theorem c9_tpu_save_checkpoint (V : Type) (is_global_zero : Bool)
    (ckpt : Ckpt V) (k : String)
    (on_save : Ckpt V → Ckpt V) (asave : Ckpt V → Except PyExc Unit) :
    (TPUSpawn_save_checkpoint is_global_zero ckpt).length = 1 ∧
    TPUSpawn_save_checkpoint is_global_zero ckpt
      = TPUSpawn_save_checkpoint true ckpt ∧
    (∀ m ∈ TPUSpawn_save_checkpoint is_global_zero ckpt,
      lookupKey m "callbacks" = none) ∧
    (k ≠ "callbacks" →
      ∀ m ∈ TPUSpawn_save_checkpoint is_global_zero ckpt,
        lookupKey m k = lookupKey ckpt k) ∧
    (TrainingTypePlugin.save_checkpoint false on_save asave ckpt).attempts
      = [] := by
  refine ⟨rfl, rfl, ?_, ?_, rfl⟩
  · intro m hm
    simp only [TPUSpawn_save_checkpoint, List.mem_singleton] at hm
    subst hm
    induction ckpt with
    | nil => rfl
    | cons kv c ih =>
      rcases kv with ⟨k1, v1⟩
      rw [List.filter_cons]
      by_cases h : k1 = "callbacks"
      · simp only [h, bne_self_eq_false]
        rw [if_neg (by simp)]
        exact ih
      · have hb : (k1 != "callbacks") = true := by
          simpa [bne] using h
        rw [if_pos (by simp [hb])]
        have hne : (k1 == "callbacks") = false := beq_eq_false_iff_ne.mpr h
        simp only [lookupKey, List.find?, hne]
        exact ih
  · intro hk m hm
    simp only [TPUSpawn_save_checkpoint, List.mem_singleton] at hm
    subst hm
    exact lookup_filter_callbacks ckpt k hk

/-- Witness for C9 at concrete inputs: a checkpoint holding `"callbacks"`,
`"state_dict"` and `"epoch"` keys is written exactly once, identically on
rank 0 and on other ranks, without its `"callbacks"` entry and with
`"epoch"` intact. -/
theorem c9_tpu_save_checkpoint_witness :
    (TPUSpawn_save_checkpoint false
        [("callbacks", 9), ("state_dict", 1), ("epoch", 3)]).length = 1 ∧
    lookupKey [("state_dict", 1), ("epoch", 3)] "callbacks" = (none : Option Nat) ∧
    lookupKey [("state_dict", 1), ("epoch", 3)] "epoch"
      = lookupKey [("callbacks", 9), ("state_dict", 1), ("epoch", 3)] "epoch" := by
  have h := c9_tpu_save_checkpoint Nat false
    [("callbacks", 9), ("state_dict", 1), ("epoch", 3)] "epoch"
    id (fun _ => .ok ())
  exact ⟨h.1,
    h.2.2.1 [("state_dict", 1), ("epoch", 3)] (by decide),
    h.2.2.2.1 (by decide) [("state_dict", 1), ("epoch", 3)] (by decide)⟩

end Spec2Proof
